import Mathlib

/-!
# Shallow embedding of the cs444-prj2 lending-library core

This file embeds, in Lean 4, the two source files of the repository:

* `src/prj2-sol/src/lib/library-dao.ts`   (storage access layer, `LibraryDao`)
* `src/prj2-sol/src/lib/lending-library.ts` (service layer, `LendingLibrary`)

JavaScript numbers are modelled as `Rat` (all arithmetic performed by the
program on these values is exact rational arithmetic; `Number.isInteger q`
becomes `q.den = 1`).  The MongoDB collections are modelled as lists of
documents; `findOne` is first-match lookup, `updateOne` updates the first
matching document, `$inc` / `$addToSet` / `$pull` / upsert follow MongoDB
single-document semantics.  A thrown / store-level error is modelled by a
fault-injection parameter `fault : Option Nat`: `fault = some k` makes the
`k`-th store round-trip of the operation raise, which the source catches and
converts to an error `Result` with code `DB`; store calls before the `k`-th
complete normally (so partially applied operations are representable).
-/

/-- A JavaScript runtime value, as far as the two source files inspect one:
strings, numbers, arrays, booleans and null. -/
inductive JsVal where
  | str (s : String)
  | num (q : Rat)
  | arr (elems : List JsVal)
  | boolV (b : Bool)
  | nullV

/-- The error codes used by the repository (`Errors.errResult(msg, code)`). -/
inductive ErrCode where
  | MISSING
  | BAD_TYPE
  | BAD_REQ
  | DB
deriving DecidableEq, Repr

/-- An error result: `{ message, code }`. -/
structure Err where
  message : String
  code : ErrCode
deriving DecidableEq, Repr

/-- `Errors.Result<T>`: either `okResult v` or `errResult (message, code)`. -/
abbrev Result (α : Type) := Except Err α

/-- Decidable equality of `Except` values (used to evaluate results on
concrete inputs). -/
def exceptDecEq {ε α : Type} [DecidableEq ε] [DecidableEq α] :
    (a b : Except ε α) → Decidable (a = b)
  | Except.ok a, Except.ok b =>
    match decEq a b with
    | isTrue h => isTrue (h ▸ rfl)
    | isFalse h => isFalse (fun hh => h (Except.ok.inj hh))
  | Except.ok _, Except.error _ => isFalse (fun hh => Except.noConfusion hh)
  | Except.error _, Except.ok _ => isFalse (fun hh => Except.noConfusion hh)
  | Except.error e, Except.error f =>
    match decEq e f with
    | isTrue h => isTrue (h ▸ rfl)
    | isFalse h => isFalse (fun hh => h (Except.error.inj hh))

instance {ε α : Type} [DecidableEq ε] [DecidableEq α] :
    DecidableEq (Except ε α) := exceptDecEq

/-- A stored book document (`Lib.XBook`), field order as in the object literal
built at `lending-library.ts:104-112`.  `pages`, `year`, `nCopies` are JS
numbers, hence `Rat`. -/
structure XBook where
  isbn : String
  title : String
  pages : Rat
  authors : List String
  publisher : String
  year : Rat
  nCopies : Rat
deriving DecidableEq, Repr

/-- A patron document (`library-dao.ts:9-12`). -/
structure Patron where
  id : String
  checkedOutBooks : List String
deriving DecidableEq, Repr

/-- The database state: the `books` and `patrons` collections, as lists of
documents in insertion order. -/
structure DBState where
  books : List XBook
  patrons : List Patron
deriving DecidableEq, Repr

/-- The empty store. -/
def DBState.empty : DBState := ⟨[], []⟩

/-- MongoDB `updateOne`: apply `f` to the first document satisfying `p`,
leave everything else unchanged (no-op when nothing matches). -/
def updateFirst {α : Type} (p : α → Bool) (f : α → α) : List α → List α
  | [] => []
  | x :: xs => if p x then f x :: xs else x :: updateFirst p f xs

/-- `true` when the fault-injection parameter makes the `k`-th store
round-trip of the current operation throw. -/
def faultAt (fault : Option Nat) (k : Nat) : Bool :=
  match fault with
  | some j => j == k
  | none => false

/-- The error `Result` produced by the `catch (error)` blocks of the source:
`Errors.errResult(error.message, 'DB')`.  The message comes from the store
exception; it is opaque to every claim, so it is modelled as a fixed string. -/
def dbErr {α : Type} : Result α := Except.error ⟨"db error", ErrCode.DB⟩

/-- JS `array.includes(x)` on a string array. -/
def strIncludes (l : List String) (s : String) : Bool :=
  l.any (fun t => t == s)

/-- MongoDB `$addToSet`: append `s` unless it is already an element. -/
def addToSet (l : List String) (s : String) : List String :=
  if strIncludes l s then l else l ++ [s]

/-- MongoDB `$pull`: remove every occurrence of `s`. -/
def pullAll (l : List String) (s : String) : List String :=
  l.filter (fun t => t != s)

/-! ## Storage access layer (`library-dao.ts`) -/

/-- `LibraryDao.addBook` (`library-dao.ts:77-97`): look the isbn up; if a
document exists, `$inc` its `nCopies` by `book.nCopies`; otherwise insert the
book.  Round-trips: 0 = `findOne`, 1 = `updateOne`/`insertOne`.  (In this
sequential model the `matchedCount` test at line 84 cannot fail: the update
targets the isbn that `findOne` just returned.)  Returns the *request* book. -/
def daoAddBook (fault : Option Nat) (st : DBState) (book : XBook) :
    Result XBook × DBState :=
  if faultAt fault 0 then (dbErr, st) else
  match st.books.find? (fun b => b.isbn == book.isbn) with
  | some _ =>
    if faultAt fault 1 then (dbErr, st) else
    (Except.ok book, ⟨updateFirst (fun b => b.isbn == book.isbn)
      (fun b => { b with nCopies := b.nCopies + book.nCopies }) st.books,
      st.patrons⟩)
  | none =>
    if faultAt fault 1 then (dbErr, st) else
    (Except.ok book, { st with books := st.books ++ [book] })

/-! ### Search (`LibraryDao.findBooksBySearch`, `library-dao.ts:99-135`)

The DAO joins the search words with `.*` into a single regular expression
(`searchWords.join('.*')`, a single word stands alone) and queries
`{$or: [{title: {$regex, $options:'i'}}, {authors: {$regex, $options:'i'}}]}`.
The pattern is a sequence of literal word tokens (only `\w` characters, so no
regex metacharacters) separated by `.*`; an unanchored case-insensitive match
succeeds on a string iff the tokens occur in order, without overlap, with `.`
not crossing a newline.  On the array field `authors` MongoDB matches when
some element matches. -/

/-- Case folding for the `i` regex option, character-wise. -/
def lowerStr (s : String) : String := String.mk (s.data.map Char.toLower)

/-- JS `String.prototype.trim()`: strip leading and trailing whitespace. -/
def jsTrim (s : String) : String :=
  String.mk
    (((s.data.dropWhile Char.isWhitespace).reverse.dropWhile
        Char.isWhitespace).reverse)

/-- Match the tail of a joined pattern: each remaining token is preceded by
`.*`, so it may start after any gap of non-newline characters. -/
def seqMatchFrom : List (List Char) → List Char → Bool
  | [], _ => true
  | t :: ts, s =>
    (List.range (s.length + 1)).any (fun i =>
      (s.take i).all (fun c => c != '\n') && t.isPrefixOf (s.drop i) &&
        seqMatchFrom ts ((s.drop i).drop t.length))

/-- Unanchored match of the joined pattern `t₁.*t₂.*…` against `s`: the first
token may start at any position (the regex engine scans all start points). -/
def regexJoinMatch (tokens : List (List Char)) (s : List Char) : Bool :=
  match tokens with
  | [] => true
  | t :: ts =>
    (List.range (s.length + 1)).any (fun i =>
      t.isPrefixOf (s.drop i) && seqMatchFrom ts ((s.drop i).drop t.length))

/-- The `$or` query of `findBooksBySearch` applied to one book document. -/
def bookMatchesQuery (searchWords : List String) (b : XBook) : Bool :=
  let toks := searchWords.map (fun t => (lowerStr t).data)
  regexJoinMatch toks (lowerStr b.title).data ||
    b.authors.any (fun a => regexJoinMatch toks (lowerStr a).data)

/-- Byte-wise (code-point) string comparison, the BSON ordering MongoDB uses
for `sort({title: 1})` with the default collation. -/
def charListLt : List Char → List Char → Bool
  | [], [] => false
  | [], _ :: _ => true
  | _ :: _, [] => false
  | a :: as, b :: bs =>
    if a < b then true else if b < a then false else charListLt as bs

/-- Insert a book into a list sorted ascending by title (stable). -/
def insertByTitle (b : XBook) : List XBook → List XBook
  | [] => [b]
  | c :: cs =>
    if charListLt b.title.data c.title.data then b :: c :: cs
    else c :: insertByTitle b cs

/-- Sort ascending by title.  (MongoDB leaves the order of equal titles
unspecified; this model uses a stable insertion sort.) -/
def sortByTitle (l : List XBook) : List XBook := l.foldr insertByTitle []

/-- `LibraryDao.findBooksBySearch` (`library-dao.ts:99-135`): filter with the
joined-regex `$or` query, sort by title ascending, then apply server-side
`skip`/`limit`.  Round-trip 0 is the whole cursor fetch.  The server rejects a
negative or non-integral `skip`, and a negative or non-integral `limit`, with
an error (caught as `DB`); `limit(0)` means "no limit". -/
def daoFindBooksBySearch (fault : Option Nat) (st : DBState)
    (searchWords : List String) (index count : Rat) :
    Result (List XBook) × DBState :=
  if faultAt fault 0 then (dbErr, st) else
  if index < 0 ∨ index.den ≠ 1 ∨ count < 0 ∨ count.den ≠ 1 then (dbErr, st) else
  if count = 0 then
    (Except.ok ((sortByTitle (st.books.filter
      (bookMatchesQuery searchWords))).drop index.num.toNat), st)
  else
    (Except.ok (((sortByTitle (st.books.filter
      (bookMatchesQuery searchWords))).drop index.num.toNat).take
        count.num.toNat), st)

/-- `LibraryDao.checkoutBook` (`library-dao.ts:137-162`).  Round-trips:
0 = `findOne` book, 1 = `findOne` patron, 2 = `updateOne` `$inc nCopies -1`,
3 = `updateOne` `$addToSet` with upsert. -/
def daoCheckoutBook (fault : Option Nat) (st : DBState)
    (patronId isbn : String) : Result Unit × DBState :=
  if faultAt fault 0 then (dbErr, st) else
  match st.books.find? (fun b => b.isbn == isbn) with
  | none => (Except.error ⟨"Book not found", ErrCode.BAD_REQ⟩, st)
  | some book =>
    if book.nCopies ≤ 0 then
      (Except.error ⟨"No copies available for checkout", ErrCode.BAD_REQ⟩, st)
    else if faultAt fault 1 then (dbErr, st) else
    match st.patrons.find? (fun p => p.id == patronId) with
    | some patron =>
      if strIncludes patron.checkedOutBooks isbn then
        (Except.error ⟨"Patron already checked out this book", ErrCode.BAD_REQ⟩, st)
      else if faultAt fault 2 then (dbErr, st) else
      if faultAt fault 3 then
        (dbErr, ⟨updateFirst (fun b => b.isbn == isbn)
          (fun b => { b with nCopies := b.nCopies - 1 }) st.books, st.patrons⟩)
      else
        (Except.ok (), ⟨updateFirst (fun b => b.isbn == isbn)
          (fun b => { b with nCopies := b.nCopies - 1 }) st.books,
          updateFirst (fun p => p.id == patronId)
            (fun p => { p with checkedOutBooks := addToSet p.checkedOutBooks isbn })
            st.patrons⟩)
    | none =>
      if faultAt fault 2 then (dbErr, st) else
      if faultAt fault 3 then
        (dbErr, ⟨updateFirst (fun b => b.isbn == isbn)
          (fun b => { b with nCopies := b.nCopies - 1 }) st.books, st.patrons⟩)
      else
        (Except.ok (), ⟨updateFirst (fun b => b.isbn == isbn)
          (fun b => { b with nCopies := b.nCopies - 1 }) st.books,
          st.patrons ++ [⟨patronId, [isbn]⟩]⟩)

/-- `LibraryDao.returnBook` (`library-dao.ts:164-184`).  Round-trips:
0 = `findOne` patron, 1 = `updateOne` `$inc nCopies 1` (a no-op when no book
carries the isbn), 2 = `updateOne` `$pull`. -/
def daoReturnBook (fault : Option Nat) (st : DBState)
    (patronId isbn : String) : Result Unit × DBState :=
  if faultAt fault 0 then (dbErr, st) else
  match st.patrons.find? (fun p => p.id == patronId) with
  | none =>
    (Except.error ⟨"No record of this book being checked out by the patron",
      ErrCode.BAD_REQ⟩, st)
  | some patron =>
    if ¬ strIncludes patron.checkedOutBooks isbn then
      (Except.error ⟨"No record of this book being checked out by the patron",
        ErrCode.BAD_REQ⟩, st)
    else if faultAt fault 1 then (dbErr, st) else
    if faultAt fault 2 then
      (dbErr, ⟨updateFirst (fun b => b.isbn == isbn)
        (fun b => { b with nCopies := b.nCopies + 1 }) st.books, st.patrons⟩)
    else
      (Except.ok (), ⟨updateFirst (fun b => b.isbn == isbn)
        (fun b => { b with nCopies := b.nCopies + 1 }) st.books,
        updateFirst (fun p => p.id == patronId)
          (fun p => { p with checkedOutBooks := pullAll p.checkedOutBooks isbn })
          st.patrons⟩)

/-- `LibraryDao.clearDatabase` (`library-dao.ts:186-195`).  Round-trips:
0 = `deleteMany` books, 1 = `deleteMany` patrons. -/
def daoClearDatabase (fault : Option Nat) (st : DBState) :
    Result Unit × DBState :=
  if faultAt fault 0 then (dbErr, st) else
  if faultAt fault 1 then (dbErr, { st with books := [] }) else
  (Except.ok (), ⟨[], []⟩)

/-! ## Service layer (`lending-library.ts`) -/

/-- JS `\w` (ASCII word character). -/
def isWordChar (c : Char) : Bool := c.isAlphanum || c == '_'

/-- Maximal runs of word characters (accumulator holds the current run,
reversed). -/
def wordRunsAux : List Char → List Char → List (List Char)
  | [], acc => if acc.isEmpty then [] else [acc.reverse]
  | c :: cs, acc =>
    if isWordChar c then wordRunsAux cs (c :: acc)
    else if acc.isEmpty then wordRunsAux cs []
    else acc.reverse :: wordRunsAux cs []

/-- `search.match(/\w{2,}/g) || []` (`lending-library.ts:152`): the maximal
word-character runs of length at least 2, in order. -/
def searchTokens (s : String) : List String :=
  ((wordRunsAux s.data []).filter (fun r => 2 ≤ r.length)).map
    (fun r => String.mk r)

/-- JS `/^\d{3}-\d{3}-\d{3}-\d{1}$/.test isbn` (`lending-library.ts:70`). -/
def isbnFormatOk (s : String) : Bool :=
  match s.data with
  | [a, b, c, '-', d, e, f, '-', g, h, i, '-', j] =>
    [a, b, c, d, e, f, g, h, i, j].all Char.isDigit
  | _ => false

/-- An `addBook` request: the fields the service reads from the untyped field
bag (`none` = field absent). -/
structure AddReq where
  isbn : Option JsVal
  title : Option JsVal
  pages : Option JsVal
  authors : Option JsVal
  publisher : Option JsVal
  year : Option JsVal
  nCopies : Option JsVal

/-- A `findBooks` request. -/
structure FindReq where
  search : Option JsVal
  index : Option JsVal
  count : Option JsVal

/-- A `checkoutBook` / `returnBook` request. -/
structure PatReq where
  patronId : Option JsVal
  isbn : Option JsVal

/-- `DEFAULT_COUNT` (`lending-library.ts:235`). -/
def DEFAULT_COUNT : Rat := 5

/-- The required-fields loop of `addBook` (`lending-library.ts:60-65`), in
loop order.  The message is the source's literal single-quoted string, in
which `${field}` is not interpolated. -/
def checkPresent (req : AddReq) : Result Unit :=
  if req.isbn.isNone ∨ req.title.isNone ∨ req.pages.isNone ∨
      req.authors.isNone ∨ req.publisher.isNone ∨ req.year.isNone ∨
      req.nCopies.isNone then
    Except.error ⟨"Missing required field: ${field}", ErrCode.MISSING⟩
  else Except.ok ()

/-- Extract the author strings once `Array.isArray` and the per-element
string checks have passed. -/
def authorStrings (elems : List JsVal) : List String :=
  elems.filterMap (fun v => match v with | JsVal.str s => some s | _ => none)

/-- `true` when some element is not a string or trims to empty
(`lending-library.ts:85`). -/
def badAuthorElem (elems : List JsVal) : Bool :=
  elems.any (fun v => match v with
    | JsVal.str s => jsTrim s == ""
    | _ => true)

/-- The validation chain of `LendingLibrary.addBook`
(`lending-library.ts:60-112`), producing the canonical `XBook` handed to the
DAO.  `currentYear` stands for `new Date().getFullYear()`. -/
def validateAddReq (currentYear : Rat) (req : AddReq) : Result XBook :=
  match checkPresent req with
  | Except.error e => Except.error e
  | Except.ok _ =>
  match req.isbn with
  | some (JsVal.str isbn) =>
    if ¬ isbnFormatOk isbn then
      Except.error ⟨"Invalid ISBN format, must be in ISBN-10 format: ddd-ddd-ddd-d",
        ErrCode.BAD_REQ⟩
    else
    match req.title with
    | some (JsVal.str title) =>
      if jsTrim title == "" then
        Except.error ⟨"Title cannot be empty", ErrCode.BAD_REQ⟩
      else
      match req.pages with
      | some (JsVal.num pages) =>
        if pages.den ≠ 1 ∨ pages ≤ 0 then
          Except.error ⟨"Pages must be a positive integer", ErrCode.BAD_TYPE⟩
        else
        match req.authors with
        | some (JsVal.arr elems) =>
          if elems.isEmpty || badAuthorElem elems then
            Except.error ⟨"Authors array cannot be empty or contain an empty author",
              ErrCode.BAD_REQ⟩
          else
          match req.publisher with
          | some (JsVal.str publisher) =>
            if jsTrim publisher == "" then
              Except.error ⟨"Publisher cannot be empty", ErrCode.BAD_REQ⟩
            else
            match req.year with
            | some (JsVal.num year) =>
              if year < 1448 ∨ year > currentYear then
                Except.error ⟨"Year must be in range [1448, currentYear]",
                  ErrCode.BAD_REQ⟩
              else
              match req.nCopies with
              | some (JsVal.num nCopies) =>
                if nCopies.den ≠ 1 ∨ nCopies ≤ 0 then
                  Except.error ⟨"nCopies must be a positive integer",
                    ErrCode.BAD_TYPE⟩
                else
                  Except.ok ⟨isbn, title, pages, authorStrings elems,
                    publisher, year, nCopies⟩
              | _ => Except.error ⟨"nCopies must be a positive integer",
                  ErrCode.BAD_TYPE⟩
            | _ => Except.error ⟨"Year must be a number", ErrCode.BAD_TYPE⟩
          | _ => Except.error ⟨"Publisher must be a string", ErrCode.BAD_TYPE⟩
        | _ => Except.error ⟨"Authors must be an array", ErrCode.BAD_TYPE⟩
      | _ => Except.error ⟨"Pages must be a positive integer", ErrCode.BAD_TYPE⟩
    | _ => Except.error ⟨"Title must be a string", ErrCode.BAD_TYPE⟩
  | _ => Except.error ⟨"ISBN must be a string", ErrCode.BAD_TYPE⟩

/-- `LendingLibrary.addBook` (`lending-library.ts:58-121`): validate, then
delegate to the DAO.  The DAO never throws (it catches internally), so the
service-level `catch` is unreachable for DAO outcomes. -/
def addBook (fault : Option Nat) (currentYear : Rat) (st : DBState)
    (req : AddReq) : Result XBook × DBState :=
  match validateAddReq currentYear req with
  | Except.error e => (Except.error e, st)
  | Except.ok book => daoAddBook fault st book

/-- `typeof req.index === 'number' && req.index >= 0 ? req.index : 0`
(`lending-library.ts:149`). -/
def findIndexArg (req : FindReq) : Rat :=
  match req.index with
  | some (JsVal.num q) => if 0 ≤ q then q else 0
  | _ => 0

/-- `typeof req.count === 'number' && req.count >= 0 ? req.count :
DEFAULT_COUNT` (`lending-library.ts:150`). -/
def findCountArg (req : FindReq) : Rat :=
  match req.count with
  | some (JsVal.num q) => if 0 ≤ q then q else DEFAULT_COUNT
  | _ => DEFAULT_COUNT

/-- `LendingLibrary.findBooks` (`lending-library.ts:142-164`).
`!req.search || typeof req.search !== 'string'` rejects everything except a
non-empty string with `MISSING`; `index` defaults to `0` and `count` to
`DEFAULT_COUNT` whenever the field is not a number `>= 0`. -/
def findBooks (fault : Option Nat) (st : DBState) (req : FindReq) :
    Result (List XBook) × DBState :=
  match req.search with
  | some (JsVal.str s) =>
    if s == "" then
      (Except.error ⟨"Search field is missing or not a string", ErrCode.MISSING⟩, st)
    else if (searchTokens s).isEmpty then
      (Except.error ⟨"No valid search words found", ErrCode.BAD_REQ⟩, st)
    else
      daoFindBooksBySearch fault st (searchTokens s) (findIndexArg req)
        (findCountArg req)
  | _ => (Except.error ⟨"Search field is missing or not a string", ErrCode.MISSING⟩, st)

/-- The `!patronId || typeof patronId !== 'string'` guard shared by
`checkoutBook` and `returnBook`: only a non-empty string passes. -/
def nonEmptyString : Option JsVal → Option String
  | some (JsVal.str s) => if s == "" then none else some s
  | _ => none

/-- `LendingLibrary.checkoutBook` (`lending-library.ts:177-197`): validate the
two fields (any failure yields `MISSING`), call the DAO, and turn *any* DAO
error — `BAD_REQ` or `DB` alike — into
`errResult('Issue checking out this book', 'BAD_REQ')`.  Note the DAO's state
mutation (if any) survives the error rewrite. -/
def checkoutBook (fault : Option Nat) (st : DBState) (req : PatReq) :
    Result Unit × DBState :=
  match nonEmptyString req.patronId with
  | none => (Except.error ⟨"Missing or invalid patronId", ErrCode.MISSING⟩, st)
  | some patronId =>
    match nonEmptyString req.isbn with
    | none => (Except.error ⟨"Missing or invalid ISBN", ErrCode.MISSING⟩, st)
    | some isbn =>
      match (daoCheckoutBook fault st patronId isbn).1 with
      | Except.ok _ => (Except.ok (), (daoCheckoutBook fault st patronId isbn).2)
      | Except.error _ =>
        (Except.error ⟨"Issue checking out this book", ErrCode.BAD_REQ⟩,
          (daoCheckoutBook fault st patronId isbn).2)

/-- `LendingLibrary.returnBook` (`lending-library.ts:208-228`): same shape as
`checkoutBook`, rewriting any DAO error to
`errResult('Issue returning this book', 'BAD_REQ')`. -/
def returnBook (fault : Option Nat) (st : DBState) (req : PatReq) :
    Result Unit × DBState :=
  match nonEmptyString req.patronId with
  | none => (Except.error ⟨"Missing or invalid patronId", ErrCode.MISSING⟩, st)
  | some patronId =>
    match nonEmptyString req.isbn with
    | none => (Except.error ⟨"Missing or invalid ISBN", ErrCode.MISSING⟩, st)
    | some isbn =>
      match (daoReturnBook fault st patronId isbn).1 with
      | Except.ok _ => (Except.ok (), (daoReturnBook fault st patronId isbn).2)
      | Except.error _ =>
        (Except.error ⟨"Issue returning this book", ErrCode.BAD_REQ⟩,
          (daoReturnBook fault st patronId isbn).2)

/-- `LendingLibrary.clear` (`lending-library.ts:30-39`): calls the DAO and
returns ok (the DAO result value is discarded; only a thrown exception —
which the DAO never lets escape — would produce an error). -/
def clearLib (fault : Option Nat) (st : DBState) : Result Unit × DBState :=
  (Except.ok (), (daoClearDatabase fault st).2)

/-- `compareBook` (`lending-library.ts:245-251`): first differing field of two
books, in the priority order title, authors, pages, year, publisher.  (This
function is defined in the source but never called.) -/
def authorsDiffer : List String → List String → Bool
  | [], _ => false
  | _ :: _, [] => true
  | a :: as, b :: bs => a != b || authorsDiffer as bs

/-- `compareBook` proper: `book0.authors.some((a, i) => a !== book1.authors[i])`
is `authorsDiffer` (an index past the end of `book1.authors` reads
`undefined`, which differs from any string). -/
def compareBook (book0 book1 : XBook) : Option String :=
  if book0.title != book1.title then some "title"
  else if authorsDiffer book0.authors book1.authors then some "authors"
  else if book0.pages != book1.pages then some "pages"
  else if book0.year != book1.year then some "year"
  else if book0.publisher != book1.publisher then some "publisher"
  else none

/-! ## Operation sequences -/

/-- One service-level request, together with its fault injection point and —
for `addBook` — the calendar year at which it runs. -/
inductive Op where
  | add (currentYear : Rat) (fault : Option Nat) (req : AddReq)
  | find (fault : Option Nat) (req : FindReq)
  | checkout (fault : Option Nat) (req : PatReq)
  | ret (fault : Option Nat) (req : PatReq)
  | clear (fault : Option Nat)

/-- The state reached after one service-level request. -/
def applyOp (st : DBState) : Op → DBState
  | Op.add y f r => (addBook f y st r).2
  | Op.find f r => (findBooks f st r).2
  | Op.checkout f r => (checkoutBook f st r).2
  | Op.ret f r => (returnBook f st r).2
  | Op.clear f => (clearLib f st).2

/-- The state reached by running a request sequence from the empty store. -/
def runOps (ops : List Op) : DBState := ops.foldl applyOp DBState.empty

/-! ## Observation helpers -/

/-- The `nCopies` of the (first) stored book with the given isbn, if any. -/
def bookNCopies (st : DBState) (isbn : String) : Option Rat :=
  (st.books.find? (fun b => b.isbn == isbn)).map (fun b => b.nCopies)

/-- Whether the (first) patron record with the given id currently holds the
isbn. -/
def patronHolds (st : DBState) (patronId isbn : String) : Bool :=
  match st.patrons.find? (fun p => p.id == patronId) with
  | some p => strIncludes p.checkedOutBooks isbn
  | none => false

/-- Every stored book has a non-negative copy count. -/
def booksNonneg (st : DBState) : Prop :=
  ∀ b ∈ st.books, 0 ≤ b.nCopies

/-- No patron record lists the same isbn twice. -/
def patronsNodup (st : DBState) : Prop :=
  ∀ p ∈ st.patrons, p.checkedOutBooks.Nodup


/-! ## Library lemmas about the store primitives -/

theorem updateFirst_of_find?_none {α : Type} {p : α → Bool} {f : α → α}
    {l : List α} (h : l.find? p = none) : updateFirst p f l = l := by
  induction l with
  | nil => rfl
  | cons a as ih =>
    by_cases hpa : p a = true
    · rw [List.find?_cons_of_pos _ hpa] at h; exact absurd h (by simp)
    · rw [List.find?_cons_of_neg _ (by simp [hpa])] at h
      simp [updateFirst, hpa, ih h]

theorem find?_updateFirst {α : Type} {p : α → Bool} {f : α → α}
    (hf : ∀ x, p x = true → p (f x) = true) (l : List α) :
    (updateFirst p f l).find? p = (l.find? p).map f := by
  induction l with
  | nil => rfl
  | cons a as ih =>
    by_cases hpa : p a = true
    · rw [updateFirst, if_pos hpa, List.find?_cons_of_pos _ (hf a hpa),
        List.find?_cons_of_pos _ hpa]
      rfl
    · simp only [updateFirst, hpa, if_false, Bool.false_eq_true]
      rw [List.find?_cons_of_neg _ (by simp [hpa]),
        List.find?_cons_of_neg _ (by simp [hpa]), ih]

theorem mem_updateFirst {α : Type} {p : α → Bool} {f : α → α} {l : List α}
    {y : α} (hy : y ∈ updateFirst p f l) :
    y ∈ l ∨ ∃ x, l.find? p = some x ∧ y = f x := by
  induction l with
  | nil => simp [updateFirst] at hy
  | cons a as ih =>
    by_cases hpa : p a = true
    · rw [updateFirst, if_pos hpa] at hy
      rcases List.mem_cons.mp hy with h | h
      · exact Or.inr ⟨a, List.find?_cons_of_pos _ hpa, h⟩
      · exact Or.inl (List.mem_cons_of_mem _ h)
    · rw [updateFirst, if_neg hpa] at hy
      rcases List.mem_cons.mp hy with h | h
      · exact Or.inl (by simp [h])
      · rcases ih h with h1 | ⟨x, hx1, hx2⟩
        · exact Or.inl (List.mem_cons_of_mem _ h1)
        · refine Or.inr ⟨x, ?_, hx2⟩
          rw [List.find?_cons_of_neg _ (by simp [hpa])]
          exact hx1

theorem find?_append_of_none {α : Type} {p : α → Bool} {l₁ l₂ : List α}
    (h : l₁.find? p = none) : (l₁ ++ l₂).find? p = l₂.find? p := by
  induction l₁ with
  | nil => rfl
  | cons a as ih =>
    by_cases hpa : p a = true
    · rw [List.find?_cons_of_pos _ hpa] at h; exact absurd h (by simp)
    · rw [List.find?_cons_of_neg _ (by simp [hpa])] at h
      rw [List.cons_append, List.find?_cons_of_neg _ (by simp [hpa])]
      exact ih h

theorem updateFirst_append_of_none {α : Type} {p : α → Bool} {f : α → α}
    {l₁ l₂ : List α} (h : l₁.find? p = none) :
    updateFirst p f (l₁ ++ l₂) = l₁ ++ updateFirst p f l₂ := by
  induction l₁ with
  | nil => rfl
  | cons a as ih =>
    by_cases hpa : p a = true
    · rw [List.find?_cons_of_pos _ hpa] at h; exact absurd h (by simp)
    · rw [List.find?_cons_of_neg _ (by simp [hpa])] at h
      simp [updateFirst, hpa, ih h]

theorem strIncludes_iff {l : List String} {s : String} :
    strIncludes l s = true ↔ s ∈ l := by
  simp [strIncludes]

theorem strIncludes_addToSet (l : List String) (s : String) :
    strIncludes (addToSet l s) s = true := by
  unfold addToSet
  by_cases h : strIncludes l s = true
  · simp [h]
  · simp only [h, if_neg, Bool.false_eq_true, if_false]
    exact strIncludes_iff.mpr (by simp)

theorem strIncludes_pullAll (l : List String) (s : String) :
    strIncludes (pullAll l s) s = false := by
  rw [Bool.eq_false_iff]
  intro h
  have := strIncludes_iff.mp h
  simp [pullAll, List.mem_filter] at this

theorem nodup_addToSet {l : List String} (s : String) (h : l.Nodup) :
    (addToSet l s).Nodup := by
  unfold addToSet
  by_cases hin : strIncludes l s = true
  · simpa [hin]
  · have hs : s ∉ l := fun hmem => hin (strIncludes_iff.mpr hmem)
    simp only [hin, Bool.false_eq_true, if_false]
    rw [List.nodup_append]
    refine ⟨h, List.nodup_singleton s, ?_⟩
    intro a ha hb
    rw [List.mem_singleton] at hb
    exact hs (hb ▸ ha)

theorem nodup_pullAll {l : List String} (s : String) (h : l.Nodup) :
    (pullAll l s).Nodup := List.Nodup.filter _ h

/-! ## Reachable-state invariants -/

/-- The rational is a non-negative integer value.  (Stored copy counts are
integers because `addBook` validates `nCopies`/`pages` with
`Number.isInteger` and the store only ever adds integers to them.) -/
def intNonneg (q : Rat) : Prop := ∃ n : ℤ, 0 ≤ n ∧ q = (n : Rat)

/-- The invariant maintained by every operation: all stored copy counts are
non-negative integers and no patron's held list has duplicates. -/
def InvState (st : DBState) : Prop :=
  (∀ b ∈ st.books, intNonneg b.nCopies) ∧
  (∀ p ∈ st.patrons, p.checkedOutBooks.Nodup)

theorem intNonneg_add_posInt {q d : Rat} (hq : intNonneg q)
    (hd : ∃ n : ℤ, 0 < n ∧ d = (n : Rat)) : intNonneg (q + d) := by
  obtain ⟨m, hm, rfl⟩ := hq
  obtain ⟨n, hn, rfl⟩ := hd
  exact ⟨m + n, by omega, by push_cast; ring⟩

theorem intNonneg_sub_one {q : Rat} (hq : intNonneg q) (hpos : ¬ q ≤ 0) :
    intNonneg (q - 1) := by
  obtain ⟨m, hm, rfl⟩ := hq
  have hm1 : 0 < m := by
    rcases lt_or_eq_of_le hm with h1 | h1
    · exact h1
    · exact absurd (by rw [← h1]; norm_num : (m : Rat) ≤ 0) hpos
  exact ⟨m - 1, by omega, by push_cast; ring⟩

theorem intNonneg_add_one {q : Rat} (hq : intNonneg q) : intNonneg (q + 1) := by
  obtain ⟨m, hm, rfl⟩ := hq
  exact ⟨m + 1, by omega, by push_cast; ring⟩

/-- A request that passes `addBook` validation carries a positive integer
`nCopies` (the `typeof !== 'number' || !Number.isInteger || <= 0` guard). -/
theorem validateAddReq_nCopies {cy : Rat} {req : AddReq} {book : XBook}
    (h : validateAddReq cy req = Except.ok book) :
    ∃ n : ℤ, 0 < n ∧ book.nCopies = (n : Rat) := by
  unfold validateAddReq checkPresent at h
  repeat' split at h
  any_goals exact Except.noConfusion h
  injection h with h1
  subst h1
  rename_i hguard
  push_neg at hguard
  exact ⟨_, Rat.num_pos.mpr hguard.2,
    (Rat.coe_int_num_of_den_eq_one hguard.1).symm⟩

/-- Decrementing the first book with a given isbn keeps all copy counts
non-negative integers, provided the `findOne` result passed the
`nCopies <= 0` guard. -/
theorem books_dec_intNonneg {st : DBState} {i : String} {book : XBook}
    (h : ∀ b ∈ st.books, intNonneg b.nCopies)
    (hfind : st.books.find? (fun b => b.isbn == i) = some book)
    (hpos : ¬ book.nCopies ≤ 0) :
    ∀ b ∈ updateFirst (fun b => b.isbn == i)
        (fun b => { b with nCopies := b.nCopies - 1 }) st.books,
      intNonneg b.nCopies := by
  intro b hb
  rcases mem_updateFirst hb with hmem | ⟨x, hx1, hx2⟩
  · exact h b hmem
  · rw [hfind] at hx1
    injection hx1 with hx1
    subst hx1
    subst hx2
    exact intNonneg_sub_one (h book (List.mem_of_find?_eq_some hfind)) hpos

/-- Incrementing the first book with a given isbn (return) keeps all copy
counts non-negative integers. -/
theorem books_inc_intNonneg {books : List XBook} {i : String}
    (h : ∀ b ∈ books, intNonneg b.nCopies) :
    ∀ b ∈ updateFirst (fun b => b.isbn == i)
        (fun b => { b with nCopies := b.nCopies + 1 }) books,
      intNonneg b.nCopies := by
  intro b hb
  rcases mem_updateFirst hb with hmem | ⟨x, hx1, hx2⟩
  · exact h b hmem
  · subst hx2
    exact intNonneg_add_one (h x (List.mem_of_find?_eq_some hx1))

/-- `$addToSet` on the first matching patron preserves duplicate-freedom. -/
theorem patrons_addToSet_nodup {patrons : List Patron} {pid i : String}
    (h : ∀ p ∈ patrons, p.checkedOutBooks.Nodup) :
    ∀ p ∈ updateFirst (fun p => p.id == pid)
        (fun p => { p with checkedOutBooks := addToSet p.checkedOutBooks i })
        patrons,
      p.checkedOutBooks.Nodup := by
  intro p hp
  rcases mem_updateFirst hp with hmem | ⟨x, hx1, hx2⟩
  · exact h p hmem
  · subst hx2
    exact nodup_addToSet i (h x (List.mem_of_find?_eq_some hx1))

/-- `$pull` on the first matching patron preserves duplicate-freedom. -/
theorem patrons_pull_nodup {patrons : List Patron} {pid i : String}
    (h : ∀ p ∈ patrons, p.checkedOutBooks.Nodup) :
    ∀ p ∈ updateFirst (fun p => p.id == pid)
        (fun p => { p with checkedOutBooks := pullAll p.checkedOutBooks i })
        patrons,
      p.checkedOutBooks.Nodup := by
  intro p hp
  rcases mem_updateFirst hp with hmem | ⟨x, hx1, hx2⟩
  · exact h p hmem
  · subst hx2
    exact nodup_pullAll i (h x (List.mem_of_find?_eq_some hx1))

theorem inv_daoAddBook {fault : Option Nat} {st : DBState} {book : XBook}
    (hb : ∃ n : ℤ, 0 < n ∧ book.nCopies = (n : Rat)) (h : InvState st) :
    InvState (daoAddBook fault st book).2 := by
  unfold daoAddBook
  split
  · exact h
  · split
    · split
      · exact h
      · refine ⟨?_, h.2⟩
        intro b hbmem
        rcases mem_updateFirst hbmem with hmem | ⟨x, hx1, hx2⟩
        · exact h.1 b hmem
        · subst hx2
          exact intNonneg_add_posInt
            (h.1 x (List.mem_of_find?_eq_some hx1)) hb
    · split
      · exact h
      · refine ⟨?_, h.2⟩
        intro b hbmem
        rcases List.mem_append.mp hbmem with hmem | hmem
        · exact h.1 b hmem
        · rw [List.mem_singleton.mp hmem]
          obtain ⟨n, hn, he⟩ := hb
          exact ⟨n, le_of_lt hn, he⟩

theorem inv_daoCheckoutBook {fault : Option Nat} {st : DBState}
    {pid i : String} (h : InvState st) :
    InvState (daoCheckoutBook fault st pid i).2 := by
  unfold daoCheckoutBook
  split
  · exact h
  split
  · exact h
  next book hfind =>
    split
    · exact h
    next hpos =>
      split
      · exact h
      split
      · next patron hpat =>
        split
        · exact h
        split
        · exact h
        split
        · exact ⟨books_dec_intNonneg h.1 hfind hpos, h.2⟩
        · exact ⟨books_dec_intNonneg h.1 hfind hpos,
            patrons_addToSet_nodup h.2⟩
      · next hpat =>
        split
        · exact h
        split
        · exact ⟨books_dec_intNonneg h.1 hfind hpos, h.2⟩
        · refine ⟨books_dec_intNonneg h.1 hfind hpos, ?_⟩
          intro p hp
          rcases List.mem_append.mp hp with hmem | hmem
          · exact h.2 p hmem
          · rw [List.mem_singleton.mp hmem]
            exact List.nodup_singleton i

theorem inv_daoReturnBook {fault : Option Nat} {st : DBState}
    {pid i : String} (h : InvState st) :
    InvState (daoReturnBook fault st pid i).2 := by
  unfold daoReturnBook
  split
  · exact h
  split
  · exact h
  next patron hpat =>
    split
    · exact h
    split
    · exact h
    split
    · exact ⟨books_inc_intNonneg h.1, h.2⟩
    · exact ⟨books_inc_intNonneg h.1, patrons_pull_nodup h.2⟩

theorem inv_daoClearDatabase {fault : Option Nat} {st : DBState}
    (h : InvState st) : InvState (daoClearDatabase fault st).2 := by
  unfold daoClearDatabase
  split
  · exact h
  split
  · exact ⟨by simp, h.2⟩
  · exact ⟨by simp, by simp⟩

/-- `findBooks` never mutates the store. -/
theorem findBooks_state (fault : Option Nat) (st : DBState) (req : FindReq) :
    (findBooks fault st req).2 = st := by
  unfold findBooks daoFindBooksBySearch
  repeat' split
  all_goals rfl

theorem inv_addBook {fault : Option Nat} {cy : Rat} {st : DBState}
    {req : AddReq} (h : InvState st) :
    InvState (addBook fault cy st req).2 := by
  unfold addBook
  split
  · exact h
  · next book hval => exact inv_daoAddBook (validateAddReq_nCopies hval) h

theorem inv_checkoutBook {fault : Option Nat} {st : DBState} {req : PatReq}
    (h : InvState st) : InvState (checkoutBook fault st req).2 := by
  unfold checkoutBook
  split
  · exact h
  split
  · exact h
  split
  all_goals exact inv_daoCheckoutBook h

theorem inv_returnBook {fault : Option Nat} {st : DBState} {req : PatReq}
    (h : InvState st) : InvState (returnBook fault st req).2 := by
  unfold returnBook
  split
  · exact h
  split
  · exact h
  split
  all_goals exact inv_daoReturnBook h

theorem inv_applyOp {st : DBState} (op : Op) (h : InvState st) :
    InvState (applyOp st op) := by
  cases op with
  | add y f r => exact inv_addBook h
  | find f r => rw [applyOp, findBooks_state]; exact h
  | checkout f r => exact inv_checkoutBook h
  | ret f r => exact inv_returnBook h
  | clear f => exact inv_daoClearDatabase h

theorem inv_runOps (ops : List Op) : InvState (runOps ops) := by
  have hgen : ∀ (l : List Op) (st : DBState), InvState st →
      InvState (l.foldl applyOp st) := by
    intro l
    induction l with
    | nil => intro st h; exact h
    | cons op rest ih =>
      intro st h
      exact ih _ (inv_applyOp op h)
  exact hgen ops DBState.empty ⟨by simp [DBState.empty], by simp [DBState.empty]⟩

/-! ## Claims -/

/-- A catalog entry used by several concrete evaluations. -/
def hobbitBook : XBook :=
  ⟨"123-456-789-0", "The Hobbit", 310, ["J.R.R. Tolkien"],
    "Houghton Mifflin", 1937, 1⟩

/-- An `addBook` request that re-adds isbn 123-456-789-0 with the same
metadata as the stored `T1` record except for the title (`T2`). -/
def reqTitleT2 : AddReq :=
  ⟨some (JsVal.str "123-456-789-0"), some (JsVal.str "T2"),
    some (JsVal.num 100), some (JsVal.arr [JsVal.str "A"]),
    some (JsVal.str "P"), some (JsVal.num 2000), some (JsVal.num 1)⟩

/-- Claim C1, behavior of the code at the failing input: with
`{isbn: "123-456-789-0", title: "T1", …, nCopies: 1}` stored, re-adding the
isbn with title `"T2"` (all other fields equal) does **not** fail with
`BAD_REQ` naming `title`: it succeeds and increments the stored record's
`nCopies` to 2.  The source's `compareBook` — which would have reported
`title` — is defined but never called by `addBook`. -/
theorem c1_inconsistent_readd_not_rejected :
    (addBook none 2026 ⟨[⟨"123-456-789-0", "T1", 100, ["A"], "P", 2000, 1⟩],
      []⟩ reqTitleT2).1 =
      Except.ok ⟨"123-456-789-0", "T2", 100, ["A"], "P", 2000, 1⟩ ∧
    (addBook none 2026 ⟨[⟨"123-456-789-0", "T1", 100, ["A"], "P", 2000, 1⟩],
      []⟩ reqTitleT2).2.books =
      [⟨"123-456-789-0", "T1", 100, ["A"], "P", 2000, 2⟩] ∧
    compareBook ⟨"123-456-789-0", "T1", 100, ["A"], "P", 2000, 1⟩
      ⟨"123-456-789-0", "T2", 100, ["A"], "P", 2000, 1⟩ = some "title" := by
  refine ⟨by decide, ?_, by decide⟩
  have h : (addBook none 2026
      ⟨[⟨"123-456-789-0", "T1", 100, ["A"], "P", 2000, 1⟩], []⟩ reqTitleT2).2.books =
      [⟨"123-456-789-0", "T1", 100, ["A"], "P", 2000, (1 : Rat) + 1⟩] := rfl
  rw [h]
  norm_num

/-- Claim C2, behavior of the code at the failing input: with the catalog
holding "The Hobbit" by "J.R.R. Tolkien", the search `"tolkien hobbit"`
returns the empty list (the DAO joins the tokens into the single regex
`tolkien.*hobbit`, which matches neither the title nor the author), even
though each token alone finds the book. -/
theorem c2_multiword_search_misses_hobbit :
    (findBooks none ⟨[hobbitBook], []⟩
      ⟨some (JsVal.str "tolkien hobbit"), none, none⟩).1 = Except.ok [] ∧
    (findBooks none ⟨[hobbitBook], []⟩
      ⟨some (JsVal.str "hobbit"), none, none⟩).1 = Except.ok [hobbitBook] ∧
    (findBooks none ⟨[hobbitBook], []⟩
      ⟨some (JsVal.str "tolkien"), none, none⟩).1 = Except.ok [hobbitBook] := by
  refine ⟨by decide, by decide, by decide⟩

/-- Claim C3, behavior of the code at the failing input: when the store
faults during `dao.checkoutBook` / `dao.returnBook` (modelled as the first
round-trip throwing), the DAO reports a `DB` error, but the service rewrites
*any* DAO error — `DB` included — into `BAD_REQ`, so the caller sees
`BAD_REQ` where the claim requires `DB`. -/
theorem c3_store_fault_masked_as_bad_req :
    (daoCheckoutBook (some 0) ⟨[hobbitBook], []⟩ "p1" "123-456-789-0").1 =
      Except.error ⟨"db error", ErrCode.DB⟩ ∧
    (checkoutBook (some 0) ⟨[hobbitBook], []⟩
      ⟨some (JsVal.str "p1"), some (JsVal.str "123-456-789-0")⟩).1 =
      Except.error ⟨"Issue checking out this book", ErrCode.BAD_REQ⟩ ∧
    (daoReturnBook (some 0) ⟨[hobbitBook], [⟨"p1", ["123-456-789-0"]⟩]⟩
      "p1" "123-456-789-0").1 = Except.error ⟨"db error", ErrCode.DB⟩ ∧
    (returnBook (some 0) ⟨[hobbitBook], [⟨"p1", ["123-456-789-0"]⟩]⟩
      ⟨some (JsVal.str "p1"), some (JsVal.str "123-456-789-0")⟩).1 =
      Except.error ⟨"Issue returning this book", ErrCode.BAD_REQ⟩ := by
  refine ⟨by decide, by decide, by decide, by decide⟩

/-- Claim C4, behavior of the code at the failing input: `pages: 0` (and
`nCopies: 0`) — present, a number, but not a positive integer — is rejected
with `BAD_TYPE`, not the claimed `BAD_REQ` (`lending-library.ts:79-81` and
`100-102` pass `'BAD_TYPE'` for these checks). -/
theorem c4_nonpositive_pages_rejected_as_bad_type :
    (addBook none 2026 DBState.empty
      ⟨some (JsVal.str "123-456-789-0"), some (JsVal.str "T"),
        some (JsVal.num 0), some (JsVal.arr [JsVal.str "A"]),
        some (JsVal.str "P"), some (JsVal.num 2000), some (JsVal.num 1)⟩).1 =
      Except.error ⟨"Pages must be a positive integer", ErrCode.BAD_TYPE⟩ ∧
    (addBook none 2026 DBState.empty
      ⟨some (JsVal.str "123-456-789-0"), some (JsVal.str "T"),
        some (JsVal.num 100), some (JsVal.arr [JsVal.str "A"]),
        some (JsVal.str "P"), some (JsVal.num 2000), some (JsVal.num 0)⟩).1 =
      Except.error ⟨"nCopies must be a positive integer", ErrCode.BAD_TYPE⟩ := by
  refine ⟨by decide, by decide⟩

/-- Claim C5, behavior of the code at the failing input: a present but
non-string `patronId` (the number 42) or `isbn` (the number 7) is rejected
with `MISSING`, not the claimed `BAD_TYPE` — the source folds
`!patronId || typeof patronId !== 'string'` into one `MISSING` branch. -/
theorem c5_nonstring_patron_fields_rejected_as_missing :
    (checkoutBook none DBState.empty
      ⟨some (JsVal.num 42), some (JsVal.str "123-456-789-0")⟩).1 =
      Except.error ⟨"Missing or invalid patronId", ErrCode.MISSING⟩ ∧
    (checkoutBook none DBState.empty
      ⟨some (JsVal.str "p1"), some (JsVal.num 7)⟩).1 =
      Except.error ⟨"Missing or invalid ISBN", ErrCode.MISSING⟩ ∧
    (returnBook none DBState.empty
      ⟨some (JsVal.num 42), some (JsVal.str "123-456-789-0")⟩).1 =
      Except.error ⟨"Missing or invalid patronId", ErrCode.MISSING⟩ ∧
    (returnBook none DBState.empty
      ⟨some (JsVal.str "p1"), some (JsVal.num 7)⟩).1 =
      Except.error ⟨"Missing or invalid ISBN", ErrCode.MISSING⟩ := by
  refine ⟨by decide, by decide, by decide, by decide⟩

/-- Claim C6, behavior of the code at the failing input: a non-numeric
`index` (the string "abc"), a non-numeric `count` (the boolean true), and a
negative `index` (-3) are all silently replaced by the defaults and the
request *succeeds* — no `BAD_TYPE` and no `BAD_REQ` is ever produced for
`index`/`count` (`lending-library.ts:149-150`). -/
theorem c6_bad_index_count_silently_defaulted :
    (findBooks none DBState.empty
      ⟨some (JsVal.str "hobbit"), some (JsVal.str "abc"), none⟩).1 =
      Except.ok [] ∧
    (findBooks none DBState.empty
      ⟨some (JsVal.str "hobbit"), none, some (JsVal.boolV true)⟩).1 =
      Except.ok [] ∧
    (findBooks none DBState.empty
      ⟨some (JsVal.str "hobbit"), some (JsVal.num (-3)), none⟩).1 =
      Except.ok [] := by
  refine ⟨by decide, by decide, by decide⟩

@[simp] theorem faultAt_none (k : Nat) : faultAt none k = false := rfl

theorem find?_updateFirst_decBook (i : String) (l : List XBook) :
    (updateFirst (fun b => b.isbn == i)
      (fun b => { b with nCopies := b.nCopies - 1 }) l).find?
      (fun b => b.isbn == i) =
    Option.map (fun b => { b with nCopies := b.nCopies - 1 })
      (l.find? (fun b => b.isbn == i)) := by
  apply find?_updateFirst
  intro x hx
  exact hx

theorem find?_updateFirst_incBook (i : String) (l : List XBook) :
    (updateFirst (fun b => b.isbn == i)
      (fun b => { b with nCopies := b.nCopies + 1 }) l).find?
      (fun b => b.isbn == i) =
    Option.map (fun b => { b with nCopies := b.nCopies + 1 })
      (l.find? (fun b => b.isbn == i)) := by
  apply find?_updateFirst
  intro x hx
  exact hx

theorem find?_updateFirst_addHold (pid i : String) (l : List Patron) :
    (updateFirst (fun q => q.id == pid)
      (fun q => { q with checkedOutBooks := addToSet q.checkedOutBooks i })
      l).find? (fun q => q.id == pid) =
    Option.map (fun q => { q with checkedOutBooks := addToSet q.checkedOutBooks i })
      (l.find? (fun q => q.id == pid)) := by
  apply find?_updateFirst
  intro x hx
  exact hx

theorem find?_updateFirst_pullHold (pid i : String) (l : List Patron) :
    (updateFirst (fun q => q.id == pid)
      (fun q => { q with checkedOutBooks := pullAll q.checkedOutBooks i })
      l).find? (fun q => q.id == pid) =
    Option.map (fun q => { q with checkedOutBooks := pullAll q.checkedOutBooks i })
      (l.find? (fun q => q.id == pid)) := by
  apply find?_updateFirst
  intro x hx
  exact hx

/-- Decrement-then-increment of the first book with isbn `i` restores the
looked-up record's `nCopies` (up to the `- 1 + 1` arithmetic). -/
theorem find?_dec_inc (books : List XBook) (i : String) :
    (updateFirst (fun b => b.isbn == i)
        (fun b => { b with nCopies := b.nCopies + 1 })
        (updateFirst (fun b => b.isbn == i)
          (fun b => { b with nCopies := b.nCopies - 1 }) books)).find?
      (fun b => b.isbn == i) =
    Option.map (fun b => { b with nCopies := b.nCopies - 1 + 1 })
      (books.find? (fun b => b.isbn == i)) := by
  rw [find?_updateFirst_incBook, find?_updateFirst_decBook, Option.map_map]
  rfl

/-- Claim C8: from any store state, after a successful `checkoutBook` on
`(patron, isbn)`, the subsequent `returnBook` on the same pair succeeds,
restores the book's stored `nCopies` to its value before the pair, and
leaves the patron no longer holding the isbn. -/
theorem c8_checkout_return_roundtrip (st : DBState) (p i : String)
    (h : (daoCheckoutBook none st p i).1 = Except.ok ()) :
    (daoReturnBook none (daoCheckoutBook none st p i).2 p i).1 =
      Except.ok () ∧
    bookNCopies (daoReturnBook none (daoCheckoutBook none st p i).2 p i).2 i =
      bookNCopies st i ∧
    patronHolds (daoReturnBook none (daoCheckoutBook none st p i).2 p i).2 p i
      = false := by
  cases hfind : st.books.find? (fun b => b.isbn == i) with
  | none =>
    have hco : (daoCheckoutBook none st p i).1 =
        Except.error ⟨"Book not found", ErrCode.BAD_REQ⟩ := by
      unfold daoCheckoutBook
      simp only [faultAt_none, Bool.false_eq_true, if_false, hfind]
    rw [hco] at h
    exact absurd h (by simp)
  | some bk =>
  by_cases hpos : bk.nCopies ≤ 0
  · have hco : (daoCheckoutBook none st p i).1 =
        Except.error ⟨"No copies available for checkout", ErrCode.BAD_REQ⟩ := by
      unfold daoCheckoutBook
      simp only [faultAt_none, Bool.false_eq_true, if_false, hfind]
      rw [if_pos hpos]
    rw [hco] at h
    exact absurd h (by simp)
  cases hpat : st.patrons.find? (fun q => q.id == p) with
  | some patron =>
    by_cases hinc : strIncludes patron.checkedOutBooks i = true
    · have hco : (daoCheckoutBook none st p i).1 =
          Except.error ⟨"Patron already checked out this book", ErrCode.BAD_REQ⟩ := by
        unfold daoCheckoutBook
        simp only [faultAt_none, Bool.false_eq_true, if_false, hfind, hpat]
        rw [if_neg hpos, if_pos hinc]
      rw [hco] at h
      exact absurd h (by simp)
    have hco : daoCheckoutBook none st p i = (Except.ok (),
        ⟨updateFirst (fun b => b.isbn == i)
          (fun b => { b with nCopies := b.nCopies - 1 }) st.books,
          updateFirst (fun q => q.id == p)
            (fun q => { q with checkedOutBooks := addToSet q.checkedOutBooks i })
            st.patrons⟩) := by
      unfold daoCheckoutBook
      simp only [faultAt_none, Bool.false_eq_true, if_false, hfind, hpat]
      rw [if_neg hpos, if_neg hinc]
    rw [hco]
    have hpat2 : (updateFirst (fun q => q.id == p)
        (fun q => { q with checkedOutBooks := addToSet q.checkedOutBooks i })
        st.patrons).find? (fun q => q.id == p) =
        some { patron with
          checkedOutBooks := addToSet patron.checkedOutBooks i } := by
      rw [find?_updateFirst_addHold, hpat]
      rfl
    have hheld : strIncludes (addToSet patron.checkedOutBooks i) i = true :=
      strIncludes_addToSet _ _
    have hrb : daoReturnBook none
        (⟨updateFirst (fun b => b.isbn == i)
          (fun b => { b with nCopies := b.nCopies - 1 }) st.books,
          updateFirst (fun q => q.id == p)
            (fun q => { q with checkedOutBooks := addToSet q.checkedOutBooks i })
            st.patrons⟩ : DBState) p i = (Except.ok (),
        ⟨updateFirst (fun b => b.isbn == i)
          (fun b => { b with nCopies := b.nCopies + 1 })
          (updateFirst (fun b => b.isbn == i)
            (fun b => { b with nCopies := b.nCopies - 1 }) st.books),
          updateFirst (fun q => q.id == p)
            (fun q => { q with checkedOutBooks := pullAll q.checkedOutBooks i })
            (updateFirst (fun q => q.id == p)
              (fun q => { q with checkedOutBooks := addToSet q.checkedOutBooks i })
              st.patrons)⟩) := by
      unfold daoReturnBook
      simp only [faultAt_none, Bool.false_eq_true, if_false, hpat2]
      rw [if_neg (by simp [hheld])]
    rw [hrb]
    refine ⟨rfl, ?_, ?_⟩
    · unfold bookNCopies
      rw [find?_dec_inc, hfind]
      simp only [Option.map_some']
      have harith : bk.nCopies - 1 + 1 = bk.nCopies := by ring
      rw [harith]
    · unfold patronHolds
      rw [find?_updateFirst_pullHold, hpat2]
      simp only [Option.map_some']
      exact strIncludes_pullAll _ _
  | none =>
    have hco : daoCheckoutBook none st p i = (Except.ok (),
        ⟨updateFirst (fun b => b.isbn == i)
          (fun b => { b with nCopies := b.nCopies - 1 }) st.books,
          st.patrons ++ [⟨p, [i]⟩]⟩) := by
      unfold daoCheckoutBook
      simp only [faultAt_none, Bool.false_eq_true, if_false, hfind, hpat]
      rw [if_neg hpos]
    rw [hco]
    have hpat2 : (st.patrons ++ [(⟨p, [i]⟩ : Patron)]).find?
        (fun q => q.id == p) = some ⟨p, [i]⟩ := by
      rw [find?_append_of_none hpat]
      simp
    have hheld : strIncludes [i] i = true := by simp [strIncludes]
    have hrb : daoReturnBook none
        (⟨updateFirst (fun b => b.isbn == i)
          (fun b => { b with nCopies := b.nCopies - 1 }) st.books,
          st.patrons ++ [⟨p, [i]⟩]⟩ : DBState) p i = (Except.ok (),
        ⟨updateFirst (fun b => b.isbn == i)
          (fun b => { b with nCopies := b.nCopies + 1 })
          (updateFirst (fun b => b.isbn == i)
            (fun b => { b with nCopies := b.nCopies - 1 }) st.books),
          updateFirst (fun q => q.id == p)
            (fun q => { q with checkedOutBooks := pullAll q.checkedOutBooks i })
            (st.patrons ++ [⟨p, [i]⟩])⟩) := by
      unfold daoReturnBook
      simp only [faultAt_none, Bool.false_eq_true, if_false, hpat2]
      rw [if_neg (by simp [hheld])]
    rw [hrb]
    refine ⟨rfl, ?_, ?_⟩
    · unfold bookNCopies
      rw [find?_dec_inc, hfind]
      simp only [Option.map_some']
      have harith : bk.nCopies - 1 + 1 = bk.nCopies := by ring
      rw [harith]
    · unfold patronHolds
      rw [find?_updateFirst_pullHold, hpat2]
      simp only [Option.map_some']
      exact strIncludes_pullAll _ _

/-- Claim C9: starting from a state without the isbn, adding the same book
(valid metadata, `nCopies = k`) twice succeeds both times and leaves exactly
one stored record for the isbn, whose `nCopies` is `2 * k`. -/
theorem c9_double_add_accumulates (cy : Rat) (req : AddReq) (book : XBook)
    (st : DBState) (hv : validateAddReq cy req = Except.ok book)
    (habs : st.books.find? (fun b => b.isbn == book.isbn) = none) :
    (addBook none cy st req).1 = Except.ok book ∧
    (addBook none cy (addBook none cy st req).2 req).1 = Except.ok book ∧
    (addBook none cy (addBook none cy st req).2 req).2.books.filter
      (fun b => b.isbn == book.isbn) =
      [{ book with nCopies := 2 * book.nCopies }] := by
  have h1 : addBook none cy st req =
      (Except.ok book, ⟨st.books ++ [book], st.patrons⟩) := by
    unfold addBook daoAddBook
    simp only [hv, faultAt_none, Bool.false_eq_true, if_false, habs]
  have hfind2 : (st.books ++ [book]).find? (fun b => b.isbn == book.isbn) =
      some book := by
    rw [find?_append_of_none habs]
    simp
  have h2 : addBook none cy (⟨st.books ++ [book], st.patrons⟩ : DBState) req =
      (Except.ok book, ⟨updateFirst (fun b => b.isbn == book.isbn)
        (fun b => { b with nCopies := b.nCopies + book.nCopies })
        (st.books ++ [book]), st.patrons⟩) := by
    unfold addBook daoAddBook
    simp only [hv, faultAt_none, Bool.false_eq_true, if_false, hfind2]
  simp only [h1, h2]
  refine ⟨trivial, trivial, ?_⟩
  rw [updateFirst_append_of_none habs]
  have hone : updateFirst (fun b => b.isbn == book.isbn)
      (fun b => { b with nCopies := b.nCopies + book.nCopies }) [book] =
      [{ book with nCopies := book.nCopies + book.nCopies }] := by
    simp [updateFirst]
  rw [hone, List.filter_append]
  have hnil : st.books.filter (fun b => b.isbn == book.isbn) = [] := by
    rw [List.filter_eq_nil_iff]
    intro a ha
    have := List.find?_eq_none.mp habs a ha
    simpa using this
  rw [hnil]
  simp [two_mul]

/-- Claim C7: (i) under every request sequence from the empty store, no
stored book ever has a negative `nCopies`; (ii) whenever the stored record
for an isbn has `nCopies = 0`, `checkoutBook` on it fails with `BAD_REQ`. -/
theorem c7_zero_copies_guard_and_nonneg :
    (∀ ops : List Op, ∀ b ∈ (runOps ops).books, 0 ≤ b.nCopies) ∧
    (∀ (fault : Option Nat) (st : DBState) (p i : String), p ≠ "" → i ≠ "" →
      bookNCopies st i = some 0 →
      (checkoutBook fault st ⟨some (JsVal.str p), some (JsVal.str i)⟩).1 =
        Except.error ⟨"Issue checking out this book", ErrCode.BAD_REQ⟩) := by
  constructor
  · intro ops b hb
    obtain ⟨n, hn, he⟩ := (inv_runOps ops).1 b hb
    rw [he]
    exact_mod_cast hn
  · intro fault st p i hp hi hzero
    obtain ⟨bk, hfind, hbk⟩ : ∃ bk,
        st.books.find? (fun b => b.isbn == i) = some bk ∧ bk.nCopies = 0 := by
      unfold bookNCopies at hzero
      cases hf : st.books.find? (fun b => b.isbn == i) with
      | none => rw [hf] at hzero; simp at hzero
      | some bk =>
        rw [hf] at hzero
        simp only [Option.map_some'] at hzero
        exact ⟨bk, rfl, by injection hzero⟩
    have hpne : nonEmptyString (some (JsVal.str p)) = some p := by
      simp [nonEmptyString, hp]
    have hine : nonEmptyString (some (JsVal.str i)) = some i := by
      simp [nonEmptyString, hi]
    have hdao : ∃ e, (daoCheckoutBook fault st p i).1 = Except.error e := by
      unfold daoCheckoutBook
      by_cases hf0 : faultAt fault 0 = true
      · rw [if_pos hf0]
        exact ⟨_, rfl⟩
      · rw [if_neg hf0]
        simp only [hfind]
        rw [if_pos (le_of_eq hbk)]
        exact ⟨_, rfl⟩
    obtain ⟨e, he⟩ := hdao
    unfold checkoutBook
    simp only [hpne, hine, he]

/-- Claim C10: after every request sequence from the empty store, no patron
record lists the same isbn twice (`$addToSet` only adds absent elements,
`$pull` removes all occurrences). -/
theorem c10_patron_holds_nodup :
    ∀ ops : List Op, ∀ q ∈ (runOps ops).patrons, q.checkedOutBooks.Nodup :=
  fun ops q hq => (inv_runOps ops).2 q hq

/-- A valid `addBook` request: isbn 123-456-789-0, title "T", 100 pages,
author "A", publisher "P", year 2000, nCopies 3. -/
def addReq3 : AddReq :=
  ⟨some (JsVal.str "123-456-789-0"), some (JsVal.str "T"),
    some (JsVal.num 100), some (JsVal.arr [JsVal.str "A"]),
    some (JsVal.str "P"), some (JsVal.num 2000), some (JsVal.num 3)⟩

/-- A one-book store used by the round-trip witness. -/
def c8State : DBState :=
  ⟨[⟨"123-456-789-0", "B", 100, ["A"], "P", 2000, 2⟩], []⟩

/-- Witness for C7: the invariant instantiated at the store reached by one
valid `addBook`, and the `nCopies = 0` guard at a concrete one-book store. -/
theorem c7_witness :
    (0 : Rat) ≤ (⟨"123-456-789-0", "T", 100, ["A"], "P", 2000, 3⟩ :
      XBook).nCopies ∧
    (checkoutBook none ⟨[⟨"123-456-789-0", "T", 100, ["A"], "P", 2000, 0⟩], []⟩
      ⟨some (JsVal.str "p1"), some (JsVal.str "123-456-789-0")⟩).1 =
      Except.error ⟨"Issue checking out this book", ErrCode.BAD_REQ⟩ :=
  ⟨c7_zero_copies_guard_and_nonneg.1 [Op.add 2026 none addReq3] _ (by decide),
   c7_zero_copies_guard_and_nonneg.2 none
     ⟨[⟨"123-456-789-0", "T", 100, ["A"], "P", 2000, 0⟩], []⟩
     "p1" "123-456-789-0" (by decide) (by decide) (by decide)⟩

/-- Witness for C8: the round trip on a concrete two-copy store. -/
theorem c8_witness :
    (daoCheckoutBook none c8State "p1" "123-456-789-0").1 = Except.ok () ∧
    ((daoReturnBook none (daoCheckoutBook none c8State "p1" "123-456-789-0").2
        "p1" "123-456-789-0").1 = Except.ok () ∧
      bookNCopies (daoReturnBook none
        (daoCheckoutBook none c8State "p1" "123-456-789-0").2
        "p1" "123-456-789-0").2 "123-456-789-0" =
        bookNCopies c8State "123-456-789-0" ∧
      patronHolds (daoReturnBook none
        (daoCheckoutBook none c8State "p1" "123-456-789-0").2
        "p1" "123-456-789-0").2 "p1" "123-456-789-0" = false) :=
  ⟨by decide,
   c8_checkout_return_roundtrip c8State "p1" "123-456-789-0" (by decide)⟩

/-- Witness for C9: the double add of `addReq3` on the empty store. -/
theorem c9_witness :
    (addBook none 2026 DBState.empty addReq3).1 =
      Except.ok ⟨"123-456-789-0", "T", 100, ["A"], "P", 2000, 3⟩ ∧
    (addBook none 2026 (addBook none 2026 DBState.empty addReq3).2 addReq3).1 =
      Except.ok ⟨"123-456-789-0", "T", 100, ["A"], "P", 2000, 3⟩ ∧
    (addBook none 2026 (addBook none 2026 DBState.empty addReq3).2
        addReq3).2.books.filter (fun b => b.isbn == "123-456-789-0") =
      [⟨"123-456-789-0", "T", 100, ["A"], "P", 2000, 2 * 3⟩] :=
  c9_double_add_accumulates 2026 addReq3
    ⟨"123-456-789-0", "T", 100, ["A"], "P", 2000, 3⟩ DBState.empty
    (by decide) rfl

/-- Witness for C10: the patron record created by a concrete add + checkout
sequence is duplicate-free. -/
theorem c10_witness :
    (Patron.mk "p1" ["123-456-789-0"]).checkedOutBooks.Nodup :=
  c10_patron_holds_nodup
    [Op.add 2026 none addReq3,
     Op.checkout none ⟨some (JsVal.str "p1"), some (JsVal.str "123-456-789-0")⟩]
    ⟨"p1", ["123-456-789-0"]⟩ (by decide)
